import Mathlib

/-!
Verification of the risk-gated execution pipeline of the adaptive trading
system.  Python sources are shallowly embedded: machine floats become `ℚ`
(all comparisons in the claims are far from rounding boundaries), Python
dictionaries become structures or association lists, and fallible
coercions (`float(...)`) become `Option`-valued functions.
-/

namespace ATS

/-! ### String helpers (Python `str.upper()` and `in` substring test) -/

def listStartsWith : List Char → List Char → Bool
  | [], _ => true
  | _ :: _, [] => false
  | a :: as, b :: bs => a == b && listStartsWith as bs

def listContainsSub (needle : List Char) : List Char → Bool
  | [] => needle.isEmpty
  | c :: rest => listStartsWith needle (c :: rest) || listContainsSub needle rest

/-- Python `needle in hay` on strings (substring test). -/
def containsSub (needle hay : String) : Bool :=
  listContainsSub needle.data hay.data

/-- Python `str.upper()` (sources only use ASCII status strings). -/
def pyUpper (s : String) : String :=
  String.mk (s.data.map Char.toUpper)

def sUNKNOWN : String := "UNKNOWN"
def sCANCEL : String := "CANCEL"
def sREJECT : String := "REJECT"
def sFILL : String := "FILL"
def sPART : String := "PART"
def sOPEN : String := "OPEN"
def sNEW : String := "NEW"
def sPENDING : String := "PENDING"
def sLIVE : String := "LIVE"
def sWORKING : String := "WORKING"
def sPARTIALLY_FILLED : String := "PARTIALLY_FILLED"

namespace Recon

/-! ### engine/order_reconciliation.py -/

/-- Internal order state machine (`OrderState` enum). -/
inductive OrderState where
  | PENDING
  | SUBMITTED
  | PARTIAL
  | FILLED
  | CANCELLED
  | REJECTED
  | STUCK
  | UNKNOWN
deriving DecidableEq, Repr

/-- `TrackedOrder` dataclass. -/
structure TrackedOrder where
  proposal_id : String
  symbol : String
  client_order_id : String
  order_id : Option String := none
  state : OrderState := OrderState.PENDING
  last_status : String := sUNKNOWN
  filled_size : ℚ := 0
  avg_price : ℚ := 0
  last_update_ts : ℚ := 0
deriving DecidableEq, Repr

/-- The exchange order dict returned by `get_order_by_client_id`, restricted
to the fields `reconcile_once` reads.  `none` fields model absent keys
(`dict.get` defaults). -/
structure RawOrder where
  status : Option String := none
  filled_size : Option ℚ := none
  avg_price : Option ℚ := none
  order_id : Option String := none
deriving DecidableEq, Repr

/-- `OrderReconciler._map_status` (order_reconciliation.py lines 110-126). -/
def map_status (status : String) (filled : ℚ) : OrderState :=
  let s := pyUpper status
  if containsSub sCANCEL s then OrderState.CANCELLED
  else if containsSub sREJECT s then OrderState.REJECTED
  else if containsSub sFILL s then OrderState.FILLED
  else if containsSub sPART s then OrderState.PARTIAL
  else if 0 < filled then OrderState.PARTIAL
  else if s = sOPEN ∨ s = sNEW ∨ s = sPENDING ∨ s = sLIVE ∨ s = sWORKING then
    OrderState.SUBMITTED
  else OrderState.UNKNOWN

/-- Body of the per-order loop of `OrderReconciler.reconcile_once`
(order_reconciliation.py lines 73-99).  `raw = none` covers both an empty
adapter answer and an adapter exception: either way the loop `continue`s
and the tracked order is left unchanged.  Field updates happen in source
order; in particular `last_update_ts` is assigned `now_ts` *before* the
stuck-detection test reads it. -/
def reconcile_step (stuck_after_sec now_ts : ℚ) (t : TrackedOrder)
    (raw : Option RawOrder) : TrackedOrder :=
  match raw with
  | none => t
  | some r =>
    let status := pyUpper (r.status.getD sUNKNOWN)
    let filled := |r.filled_size.getD 0|
    let avg := r.avg_price.getD 0
    let new_state := map_status status filled
    let cur : TrackedOrder :=
      { t with
        last_status := status
        filled_size := filled
        avg_price := avg
        last_update_ts := now_ts
        order_id := match t.order_id with
          | some oid => some oid
          | none => r.order_id }
    if (cur.state = OrderState.SUBMITTED ∨ cur.state = OrderState.PARTIAL)
        ∧ stuck_after_sec < now_ts - cur.last_update_ts then
      { cur with state := OrderState.STUCK }
    else
      { cur with state := new_state }

/-- `OrderReconciler.reconcile_once`: one pass over all tracked orders,
the adapter response looked up per client order id. -/
def reconcile_once (stuck_after_sec now_ts : ℚ)
    (orders : List TrackedOrder) (adapter : String → Option RawOrder) :
    List TrackedOrder :=
  orders.map (fun t => reconcile_step stuck_after_sec now_ts t (adapter t.client_order_id))

/-- The status mapping as the specification words it: case-insensitive
substring matching tried in the order CANCEL, REJECT, FILL, PART (first
match wins), then `filled_size > 0` as PARTIAL, then the open vocabulary
OPEN/NEW/PENDING/LIVE/WORKING as SUBMITTED, else UNKNOWN. -/
def map_status_spec (status : String) (filled : ℚ) : OrderState :=
  let s := pyUpper status
  let needles : List (String × OrderState) :=
    [(sCANCEL, OrderState.CANCELLED), (sREJECT, OrderState.REJECTED),
     (sFILL, OrderState.FILLED), (sPART, OrderState.PARTIAL)]
  match needles.find? (fun kv => containsSub kv.1 s) with
  | some kv => kv.2
  | none =>
    if 0 < filled then OrderState.PARTIAL
    else if s ∈ [sOPEN, sNEW, sPENDING, sLIVE, sWORKING] then OrderState.SUBMITTED
    else OrderState.UNKNOWN

end Recon

namespace Risk

/-! ### risk/risk_brain.py and risk/volatility_model.py -/

/-- Constants set in `RiskBrain.__init__`. -/
def max_position_per_symbol : ℚ := 5
def max_total_exposure : ℚ := 10
def daily_loss_limit : ℚ := -1000
def drawdown_soft_limit : ℚ := -500
def drawdown_hard_limit : ℚ := -1500
def cpm_trigger_level : ℚ := -800
def cpm_recovery_level : ℚ := -300
def cpm_size_multiplier : ℚ := 3/10
def cpm_min_duration : ℚ := 3600
def low_vol_threshold : ℚ := 1/100
def high_vol_threshold : ℚ := 5/100

/-- Mutable fields of `RiskBrain` (plus the wrapped `VolatilityModel`'s
`volatility`).  `portfolio.total_pnl()` and `time.time()` are external
reads and are passed as arguments to the methods that consult them. -/
structure RiskBrain where
  equity_peak : ℚ := 0
  drawdown : ℚ := 0
  kill_switch_active : Bool := false
  cpm_active : Bool := false
  cpm_start_time : Option ℚ := none
  volatility : ℚ := 0
deriving DecidableEq, Repr

/-- `RiskBrain.update_drawdown` (risk_brain.py lines 38-44); `equity` is
the value of `portfolio.total_pnl()`. -/
def update_drawdown (rb : RiskBrain) (equity : ℚ) : RiskBrain :=
  let peak := if rb.equity_peak < equity then equity else rb.equity_peak
  { rb with equity_peak := peak, drawdown := equity - peak }

/-- `RiskBrain.update_cpm_state` (risk_brain.py lines 50-63); `now` is
`time.time()`. -/
def update_cpm_state (rb : RiskBrain) (now : ℚ) : RiskBrain :=
  let rb1 :=
    if ¬rb.cpm_active ∧ rb.drawdown ≤ cpm_trigger_level then
      { rb with cpm_active := true, cpm_start_time := some now }
    else rb
  if rb1.cpm_active ∧ cpm_recovery_level ≤ rb1.drawdown
      ∧ cpm_min_duration ≤ now - rb1.cpm_start_time.getD 0 then
    { rb1 with cpm_active := false }
  else rb1

/-- `RiskBrain.cpm_multiplier`. -/
def cpm_multiplier (rb : RiskBrain) : ℚ :=
  if rb.cpm_active then cpm_size_multiplier else 1

/-- `RiskBrain.drawdown_multiplier` (risk_brain.py lines 72-82).  Returns
the updated state (the hard-limit branch sets the kill switch) and the
multiplier.  In the soft-to-hard band the source computes
`max(0.2, 1.0 + progress)` with
`progress = (drawdown - soft) / (hard - soft)`. -/
def drawdown_multiplier (rb : RiskBrain) : RiskBrain × ℚ :=
  if rb.drawdown ≤ drawdown_hard_limit then
    ({ rb with kill_switch_active := true }, 0)
  else if rb.drawdown ≤ drawdown_soft_limit then
    let range_dd := drawdown_hard_limit - drawdown_soft_limit
    let progress := (rb.drawdown - drawdown_soft_limit) / range_dd
    (rb, max (2/10) (1 + progress))
  else (rb, 1)

/-- `VolatilityModel.risk_multiplier` (volatility_model.py lines 22-29). -/
def risk_multiplier (volatility : ℚ) : ℚ :=
  if high_vol_threshold ≤ volatility then 4/10
  else if low_vol_threshold ≤ volatility then 7/10
  else 1

/-- Dict-shaped proposal consumed by `RiskBrain.evaluate_trade`. -/
structure TradeProposal where
  symbol : String
  direction : String
  size : ℚ
deriving DecidableEq, Repr

/-- `portfolio.exposure()` : signed position size per symbol. -/
def exposure_get (positions : List (String × ℚ)) (sym : String) : ℚ :=
  match positions.find? (fun kv => kv.1 == sym) with
  | some kv => kv.2
  | none => 0

def total_exposure (positions : List (String × ℚ)) : ℚ :=
  (positions.map (fun kv => |kv.2|)).sum

def sLONG : String := "LONG"
def rKillSwitchActive : String := "Kill switch active"
def rDailyLossBreached : String := "Daily loss limit breached"
def rScaledToZero : String := "Risk scaling reduced size to zero"
def rSymbolLimit : String := "Symbol exposure limit reached"
def rTotalLimit : String := "Total exposure limit reached"
def rCombined : String := "combined"

/-- `RiskBrain.evaluate_trade` (risk_brain.py lines 88-136).  `equity` is
`portfolio.total_pnl()` (read twice by the source within one call, with no
interleaved write), `now` is `time.time()`, `positions` is
`portfolio.exposure()`.  The formatted reason string of the success branch
is collapsed to a constant. -/
def evaluate_trade (rb : RiskBrain) (equity now : ℚ) (proposal : TradeProposal)
    (positions : List (String × ℚ)) : RiskBrain × (Bool × ℚ × String) :=
  let rb1 := update_drawdown rb equity
  let rb2 := update_cpm_state rb1 now
  if rb2.kill_switch_active then (rb2, (false, 0, rKillSwitchActive))
  else if equity ≤ daily_loss_limit then
    ({ rb2 with kill_switch_active := true }, (false, 0, rDailyLossBreached))
  else
    let symbol := proposal.symbol
    let direction := proposal.direction
    let size0 := proposal.size
    let (rb3, dd_mult) := drawdown_multiplier rb2
    let vol_mult := risk_multiplier rb3.volatility
    let cpm_mult := cpm_multiplier rb3
    let combined_mult := dd_mult * vol_mult * cpm_mult
    let size1 := size0 * combined_mult
    if size1 ≤ 0 then (rb3, (false, 0, rScaledToZero))
    else
      let signed_size := if direction = sLONG then size1 else -size1
      let current_symbol_size := exposure_get positions symbol
      let new_symbol_size := current_symbol_size + signed_size
      let portfolioCap := fun (size : ℚ) =>
        let tot := total_exposure positions
        if max_total_exposure < tot + |size| then
          let allowed := max_total_exposure - tot
          if allowed ≤ 0 then (rb3, (false, 0, rTotalLimit))
          else (rb3, (true, min size allowed, rCombined))
        else (rb3, (true, size, rCombined))
      if max_position_per_symbol < |new_symbol_size| then
        let allowed_size := max_position_per_symbol - |current_symbol_size|
        if allowed_size ≤ 0 then (rb3, (false, 0, rSymbolLimit))
        else portfolioCap (min size1 allowed_size)
      else portfolioCap size1

end Risk

namespace VolKS

/-! ### risk/volatility_kill_switch.py

`np.std` values are compared, never stored: the source condition
`baseline_vol > 0 and recent_vol > baseline_vol * 3.0` on standard
deviations is encoded square-root-free as
`baseline_var > 0 ∧ recent_var > 9 * baseline_var`, which is equivalent
for the nonnegative variances involved. -/

def window : ℕ := 30
def cooldown_cycles : ℤ := 20

/-- Mutable state of `VolatilityKillSwitch`. -/
structure KS where
  prices : List ℚ := []
  kill_active : Bool := false
  cooldown_left : ℤ := 0
deriving DecidableEq, Repr

/-- Population variance, `np.std(l) ** 2` (only applied to nonempty lists
by the callers below). -/
def npVariance (l : List ℚ) : ℚ :=
  if l.length = 0 then 0
  else
    let m := l.sum / l.length
    ((l.map (fun x => (x - m) ^ 2)).sum) / l.length

/-- `np.diff(prices) / prices[:-1]` (all prices in the traces used below
are nonzero). -/
def pyReturns (prices : List ℚ) : List ℚ :=
  List.zipWith (fun a b => (b - a) / a) prices prices.tail

/-- The price window after append/pop and whether the spike condition of
`VolatilityKillSwitch.update` holds on this call. -/
def step_data (s : KS) (price : ℚ) : List ℚ × Bool :=
  let prices1 := s.prices ++ [price]
  let prices2 := if window < prices1.length then prices1.tail else prices1
  if prices2.length < 10 then (prices2, false)
  else
    let returns := pyReturns prices2
    let recent := returns.drop (returns.length - 5)
    let recent_var := npVariance recent
    let baseline_var :=
      if 5 < returns.length then npVariance (returns.take (returns.length - 5))
      else recent_var
    (prices2, decide (0 < baseline_var ∧ 9 * baseline_var < recent_var))

/-- `VolatilityKillSwitch.update` (volatility_kill_switch.py lines 14-33). -/
def update (s : KS) (price : ℚ) : KS :=
  let (prices2, spike) := step_data s price
  if prices2.length < 10 then { s with prices := prices2 }
  else
    let s1 :=
      if spike then
        { s with prices := prices2, kill_active := true, cooldown_left := cooldown_cycles }
      else { s with prices := prices2 }
    if s1.kill_active then
      let c := s1.cooldown_left - 1
      if c ≤ 0 then { s1 with cooldown_left := c, kill_active := false }
      else { s1 with cooldown_left := c }
    else s1

/-- Fold a price sequence through `update`. -/
def run (s : KS) (prices : List ℚ) : KS :=
  prices.foldl update s

/-- True when none of the updates along `prices` fires the spike
condition. -/
def noSpikeRun : KS → List ℚ → Bool
  | _, [] => true
  | s, p :: rest => !(step_data s p).2 && noSpikeRun (update s p) rest

end VolKS

namespace RunBot

/-! ### scripts/run_bot.py — API-failure streak and kill switch -/

/-- `BotConfig.api_failure_kill_threshold` default (run_bot.py line 146). -/
def api_failure_kill_threshold : ℕ := 6

/-- `BotConfig.api_failure_decay_sec` default (run_bot.py line 147). -/
def api_failure_decay_sec : ℚ := 60

/-- The fields of `RuntimeState` touched by the failure/decay logic of
`hars_main_loop`. -/
structure RuntimeState where
  kill_switch : Bool := false
  api_failure_streak : ℕ := 0
deriving DecidableEq, Repr

/-- The `except APIError` handler of `hars_main_loop`
(run_bot.py lines 539-549): increment the streak, trip the kill switch at
the configured threshold. -/
def api_failure_step (threshold : ℕ) (st : RuntimeState) : RuntimeState :=
  let streak := st.api_failure_streak + 1
  { st with
    api_failure_streak := streak
    kill_switch := if threshold ≤ streak then true else st.kill_switch }

/-- The time-based streak decay at the top of each loop iteration
(run_bot.py lines 431-436): if the configured decay interval is nonzero
and has elapsed since the last decay while the streak is positive, the
streak drops by one and the decay clock resets. -/
def failure_decay_step (decay_sec now_ts last_decay_ts : ℚ)
    (st : RuntimeState) : RuntimeState × ℚ :=
  if decay_sec ≠ 0 ∧ decay_sec ≤ now_ts - last_decay_ts ∧ 0 < st.api_failure_streak then
    ({ st with api_failure_streak := st.api_failure_streak - 1 }, now_ts)
  else (st, last_decay_ts)

/-- `n` consecutive API failures. -/
def api_failures (threshold n : ℕ) (st : RuntimeState) : RuntimeState :=
  (List.range n).foldl (fun s _ => api_failure_step threshold s) st

end RunBot

namespace Router

/-! ### strategy/strategy_router.py -/

inductive Basket where
  | BASKET_1
  | BASKET_2
  | BASKET_3
deriving DecidableEq, Repr

inductive Module where
  | MEAN_REVERSION
  | TREND_CONTINUATION
  | LIQUIDITY_RAID
deriving DecidableEq, Repr

inductive HTFRegime where
  | TREND_UP
  | TREND_DOWN
  | BALANCED
  | HIGH_VOLATILITY
  | TRANSITION
deriving DecidableEq, Repr

def sLONG : String := "LONG"
def sSHORT : String := "SHORT"
def sGREEN : String := "GREEN"
def sCIRCUIT : String := "CIRCUIT"
def sCIRCUIT_BREAK : String := "CIRCUIT_BREAK"
def nMeanReversion : String := "mean_reversion"
def nTrendContinuation : String := "trend_continuation"
def nLiquidityRaid : String := "liquidity_raid"

/-- `AuctionContext` frozen microstructure flags. -/
structure AuctionContext where
  entry_at_val : Bool := false
  entry_at_vah : Bool := false
  entry_at_value_mid : Bool := false
  outside_value_area : Bool := false
  sfp_present : Bool := false
  delta_aligned : Bool := false
  absorption_detected : Bool := false
  htf_filter_passed : Bool := false
  no_trade_zone_active : Bool := false
deriving DecidableEq, Repr

/-- The router's frozen `ExecutionProposal` (enum-typed tags). -/
structure ExecutionProposal where
  proposal_id : String
  symbol : String
  direction : String
  size : ℚ
  entry_price : ℚ
  stop_loss : ℚ
  take_profit : ℚ
  basket : Basket
  module : Module
  htf_regime : HTFRegime
  auction_context : AuctionContext
deriving DecidableEq, Repr

/-- `ExecutionProposal.validate` (strategy_router.py lines 92-107), boolean
component; the `isinstance` checks on the enum-typed fields always pass in
this typed embedding, and the error strings are elided. -/
def validate (p : ExecutionProposal) : Bool :=
  decide ((p.direction = sLONG ∨ p.direction = sSHORT) ∧ 0 < p.size ∧ 0 < p.entry_price)

/-- `RiskState` consumed by the router. -/
structure RiskState where
  kill_switch : Bool := false
  risk_level : String := sGREEN
  consecutive_losses : ℕ := 0
  daily_pnl : ℚ := 0
  drawdown_pct : ℚ := 0
  vol_spike : Bool := false
  api_failure_streak : ℕ := 0
deriving DecidableEq, Repr

/-- `RouterConfig`. -/
structure RouterConfig where
  allow_liquidity_raid : Bool
  disable_liquidity_raid_in : List HTFRegime
  basket3_soft_block : Bool
  no_trade_regimes : List HTFRegime
  danger_transitions : List (HTFRegime × HTFRegime)
  regime_priority : HTFRegime → List String
  danger_priority : List String
  max_api_failure_streak_for_aggressive : ℕ
  block_aggressive_on_vol_spike : Bool
  aggressive_strategies : List String

/-- Default `RouterConfig` values (strategy_router.py lines 154-196). -/
def defaultConfig : RouterConfig where
  allow_liquidity_raid := true
  disable_liquidity_raid_in := [HTFRegime.HIGH_VOLATILITY, HTFRegime.TRANSITION]
  basket3_soft_block := true
  no_trade_regimes := []
  danger_transitions :=
    [(HTFRegime.TREND_UP, HTFRegime.HIGH_VOLATILITY),
     (HTFRegime.BALANCED, HTFRegime.TRANSITION)]
  regime_priority := fun r =>
    match r with
    | HTFRegime.TREND_UP => [nTrendContinuation, nMeanReversion, nLiquidityRaid]
    | HTFRegime.TREND_DOWN => [nTrendContinuation, nMeanReversion, nLiquidityRaid]
    | HTFRegime.BALANCED => [nMeanReversion, nTrendContinuation, nLiquidityRaid]
    | HTFRegime.HIGH_VOLATILITY => [nMeanReversion, nTrendContinuation]
    | HTFRegime.TRANSITION => [nMeanReversion]
  danger_priority := [nMeanReversion]
  max_api_failure_streak_for_aggressive := 2
  block_aggressive_on_vol_spike := true
  aggressive_strategies := [nLiquidityRaid]

/-- `StrategyRouter._priority_for_regime`. -/
def priority_for_regime (cfg : RouterConfig) (regime : HTFRegime)
    (prev_regime : Option HTFRegime) : List String :=
  match prev_regime with
  | some pr =>
    if (pr, regime) ∈ cfg.danger_transitions then cfg.danger_priority
    else cfg.regime_priority regime
  | none => cfg.regime_priority regime

/-- `StrategyRouter._apply_rule_gates`. -/
def apply_rule_gates (cfg : RouterConfig) (regime : HTFRegime)
    (rs : RiskState) (priority : List String) : List String :=
  let p1 :=
    if ¬cfg.allow_liquidity_raid ∨ regime ∈ cfg.disable_liquidity_raid_in then
      priority.filter (fun p => p ≠ nLiquidityRaid)
    else priority
  let p2 :=
    if cfg.block_aggressive_on_vol_spike ∧ rs.vol_spike then
      p1.filter (fun p => p ∉ cfg.aggressive_strategies)
    else p1
  if cfg.max_api_failure_streak_for_aggressive < rs.api_failure_streak then
    p2.filter (fun p => p ∉ cfg.aggressive_strategies)
  else p2

/-- The strategy registry together with each strategy's `propose` result
for the fixed tick arguments: `strats name = none` models a missing
registry entry, `strats name = some none` a strategy that returned no
proposal. -/
def Strategies := String → Option (Option ExecutionProposal)

/-- The scanning loop of `StrategyRouter.route`
(strategy_router.py lines 271-303), with the BASKET_3 fallback
accumulator. -/
def route_scan (cfg : RouterConfig) (regime : HTFRegime) (strats : Strategies) :
    List String → Option ExecutionProposal → Option ExecutionProposal
  | [], fallback => fallback
  | k :: rest, fallback =>
    match strats k with
    | none => route_scan cfg regime strats rest fallback
    | some none => route_scan cfg regime strats rest fallback
    | some (some p) =>
      if validate p = false then route_scan cfg regime strats rest fallback
      else if p.module = Module.LIQUIDITY_RAID ∧ regime ∈ cfg.disable_liquidity_raid_in then
        route_scan cfg regime strats rest fallback
      else if cfg.basket3_soft_block ∧ p.basket = Basket.BASKET_3 then
        route_scan cfg regime strats rest (some p)
      else some p

/-- `StrategyRouter.route` (strategy_router.py lines 247-303). -/
def route (cfg : RouterConfig) (regime : HTFRegime) (prev_regime : Option HTFRegime)
    (rs : RiskState) (strats : Strategies) : Option ExecutionProposal :=
  if rs.kill_switch = true ∨ rs.risk_level = sCIRCUIT ∨ rs.risk_level = sCIRCUIT_BREAK then
    none
  else if regime ∈ cfg.no_trade_regimes then none
  else
    route_scan cfg regime strats
      (apply_rule_gates cfg regime rs (priority_for_regime cfg regime prev_regime)) none

/-- A proposal survives the scan's per-proposal filters: it passes
frozen-contract validation and is not removed by the module/regime gate of
line 293. -/
def eligible (cfg : RouterConfig) (regime : HTFRegime) (p : ExecutionProposal) : Bool :=
  validate p &&
    !(decide (p.module = Module.LIQUIDITY_RAID ∧ regime ∈ cfg.disable_liquidity_raid_in))

/-- The eligible proposals produced along a priority list, in scan order. -/
def eligList (cfg : RouterConfig) (regime : HTFRegime) (strats : Strategies)
    (priority : List String) : List ExecutionProposal :=
  priority.filterMap (fun k =>
    match strats k with
    | some (some p) => if eligible cfg regime p then some p else none
    | _ => none)

/-- Reference model of the scanning loop over the eligible proposals when
the BASKET_3 soft block is enabled: the first non-BASKET_3 proposal wins,
otherwise the last BASKET_3 proposal is held as the fallback. -/
def scanModel : List ExecutionProposal → Option ExecutionProposal → Option ExecutionProposal
  | [], fb => fb
  | p :: rest, _ =>
    if p.basket = Basket.BASKET_3 then scanModel rest (some p) else some p

end Router

namespace Engine

/-! ### engine/execution_engine.py -/

def sLONG : String := "LONG"
def sSHORT : String := "SHORT"
def sCIRCUIT : String := "CIRCUIT"
def sNone : String := "None"
def rKillSwitchActive : String := "KILL_SWITCH_ACTIVE"
def rPause : String := "PAUSE"
def rOk : String := "OK"

/-- The engine-side `ExecutionProposal` (string-typed frozen tags,
execution_engine.py lines 22-37).  `auction_context_is_dict` models the
`isinstance(self.auction_context, dict)` check of `validate`. -/
structure ExecutionProposal where
  proposal_id : String
  symbol : String
  direction : String
  size : ℚ
  entry_price : ℚ
  stop_loss : ℚ
  take_profit : ℚ
  basket : String
  module : String
  htf_regime : String
  auction_context_is_dict : Bool := true
deriving DecidableEq, Repr

/-- `ExecutionProposal.validate` (execution_engine.py lines 39-53), boolean
component; Python string truthiness becomes a nonemptiness test and the
error strings are elided. -/
def validate (p : ExecutionProposal) : Bool :=
  decide ((p.direction = sLONG ∨ p.direction = sSHORT)
    ∧ 0 < p.size
    ∧ p.symbol ≠ ""
    ∧ p.proposal_id ≠ ""
    ∧ p.basket ≠ "" ∧ p.module ≠ "" ∧ p.htf_regime ≠ ""
    ∧ p.auction_context_is_dict = true)

/-- Modelled from the spec: the `RiskBrain` variant consumed by
`ExecutionEngine` (exposing `assess_proposal`, `register_api_success`,
`register_api_failure` and a mutable `state` with `kill_switch`,
`risk_level` and `api_failure_streak`) is not under `src/`; only its
callers are.  Its state fields follow §3 `RiskState`. -/
structure RiskState where
  kill_switch : Bool := false
  risk_level : String := "GREEN"
  api_failure_streak : ℕ := 0
deriving DecidableEq, Repr

/-- The `(allow, allocation_multiplier, reason)` decision returned by
`assess_proposal`. -/
structure Decision where
  allow : Bool
  allocation_multiplier : ℚ
  reason : String
deriving DecidableEq, Repr

/-- Modelled from the spec: `RiskBrain.assess_proposal` per §4.2 — reject
when the kill switch is active, reject (PAUSE) when the API-failure streak
has reached the configured threshold, otherwise allow with the combined
multiplier (passed in abstractly as `mult`, §4.2 computes it from the
sub-multipliers) clamped to `[0,1]`. -/
def assess_proposal (st : RiskState) (mult : ℚ) (threshold : ℕ) : Decision :=
  if st.kill_switch then { allow := false, allocation_multiplier := 0, reason := rKillSwitchActive }
  else if threshold ≤ st.api_failure_streak then
    { allow := false, allocation_multiplier := 0, reason := rPause }
  else { allow := true, allocation_multiplier := max 0 (min 1 mult), reason := rOk }

/-- Modelled from the spec: `RiskBrain.register_api_failure` per §4.2 —
increment the streak and flip the kill switch once the streak reaches the
hard threshold (never back to false). -/
def register_api_failure (st : RiskState) (threshold : ℕ) : RiskState :=
  let streak := st.api_failure_streak + 1
  { st with
    api_failure_streak := streak
    kill_switch := st.kill_switch || decide (threshold ≤ streak) }

/-- Modelled from the spec: `RiskBrain.register_api_success` per §4.2 — a
transient streak decays by one per success; the kill switch is untouched. -/
def register_api_success (st : RiskState) : RiskState :=
  { st with api_failure_streak := st.api_failure_streak - 1 }

/-- A Python value found under `filled_size` / `avg_price` in the adapter's
order dict: a number, or a truthy non-numeric value on which `float(...)`
raises `ValueError`. -/
inductive PyNum where
  | num (q : ℚ)
  | nonNumeric
deriving DecidableEq, Repr

/-- `abs(float(order.get("filled_size", 0.0) or 0.0))` without the outer
`abs`: `none` maps the raise. -/
def coerce_filled : Option PyNum → Option ℚ
  | none => some 0
  | some (PyNum.num q) => some q
  | some PyNum.nonNumeric => none

/-- `float(order.get("avg_price", reference_price) or reference_price)`:
a `0` value is falsy in Python, so it falls back to the reference price. -/
def coerce_avg (ref : ℚ) : Option PyNum → Option ℚ
  | none => some ref
  | some (PyNum.num q) => some (if q = 0 then ref else q)
  | some PyNum.nonNumeric => none

/-- The order dict returned by `market_order`.  The in-repo
`LighterApiClient.market_order` only checks that the four keys are
present (`_validate_order_fields`), not their types, so number-valued
fields may still carry non-numeric payloads. -/
structure RawOrder where
  order_id : Option String := none
  status : Option String := none
  filled_size : Option PyNum := none
  avg_price : Option PyNum := none
deriving DecidableEq, Repr

/-- Outcome of `await self.api.market_order(...)`: a returned dict, a
raised `APIError`, or any other raised exception. -/
inductive AdapterCall where
  | ok (order : RawOrder)
  | apiError
  | otherExc
deriving DecidableEq, Repr

/-- `ExecutionResult` dataclass. -/
structure ExecutionResult where
  proposal_id : String
  symbol : String
  client_order_id : String
  order_id : String
  status : String
  allocated_size : ℚ
  executed_size : ℚ
  executed_price : ℚ
  allocation_multiplier : ℚ
  ts : String
  frozen_basket : String
  frozen_module : String
  frozen_htf_regime : String
deriving DecidableEq, Repr

/-- Exceptions `execute` can let escape. -/
inductive ExcKind where
  | valueError
deriving DecidableEq, Repr

/-- Externally visible side requests of one `execute` call. -/
structure Effects where
  cancelAttempted : Bool := false
  tracked : Bool := false
  storeAttempted : Bool := false
deriving DecidableEq, Repr

/-- Result of one `execute` call: either a normal return
(`ExecutionResult` or `None`) or an uncaught exception, together with the
risk state after the call and the side requests made. -/
structure ExecOut where
  result : Except ExcKind (Option ExecutionResult)
  risk : RiskState
  eff : Effects
deriving Repr

def min_size : ℚ := 1 / 100000000

def tol : ℚ := 1 / 100

/-- `str(order.get("order_id"))`. -/
def pyStr (o : Option String) : String := o.getD sNone

/-- `ExecutionEngine.execute` (execution_engine.py lines 98-184), with the
risk engine's decision `dec` passed in (the source obtains it from
`assess_proposal`, see `execute_full`), the adapter call outcome `call`,
and the store callback outcome `store_fails` (its failure is caught and
only logged).  The `try` block covers only the `market_order` call and
`register_api_success`; the field coercions after it run unprotected, so a
`ValueError` there escapes as `Except.error`. -/
def execute (dec : Decision) (p : ExecutionProposal) (reference_price : ℚ)
    (st : RiskState) (threshold : ℕ) (call : AdapterCall)
    (_store_fails : Bool) (ts : String) : ExecOut :=
  if validate p = false then { result := Except.ok none, risk := st, eff := {} }
  else if dec.allow = false then { result := Except.ok none, risk := st, eff := {} }
  else
    let allocation_multiplier := dec.allocation_multiplier
    let allocated_size := p.size * allocation_multiplier
    if allocated_size < min_size then { result := Except.ok none, risk := st, eff := {} }
    else
      let client_order_id := p.proposal_id
      match call with
      | AdapterCall.apiError =>
        { result := Except.ok none, risk := register_api_failure st threshold, eff := {} }
      | AdapterCall.otherExc =>
        { result := Except.ok none, risk := register_api_failure st threshold, eff := {} }
      | AdapterCall.ok order =>
        let st1 := register_api_success st
        let order_id := pyStr order.order_id
        let status := pyUpper (order.status.getD sUNKNOWN)
        match coerce_filled order.filled_size with
        | none => { result := Except.error ExcKind.valueError, risk := st1, eff := {} }
        | some f =>
          let executed_size := |f|
          match coerce_avg reference_price order.avg_price with
          | none => { result := Except.error ExcKind.valueError, risk := st1, eff := {} }
          | some executed_price =>
            let max_allowed := allocated_size * (1 + tol)
            if max_allowed < executed_size then
              { result := Except.ok none
                risk := { st1 with kill_switch := true, risk_level := sCIRCUIT }
                eff := { cancelAttempted := true } }
            else
              let res : ExecutionResult :=
                { proposal_id := p.proposal_id
                  symbol := p.symbol
                  client_order_id := client_order_id
                  order_id := order_id
                  status := status
                  allocated_size := allocated_size
                  executed_size := executed_size
                  executed_price := executed_price
                  allocation_multiplier := allocation_multiplier
                  ts := ts
                  frozen_basket := p.basket
                  frozen_module := p.module
                  frozen_htf_regime := p.htf_regime }
              { result := Except.ok (some res)
                risk := st1
                eff := { tracked := true, storeAttempted := true } }

/-- `execute` with the decision taken from the (spec-modelled)
`assess_proposal`, as in the source's `decision = self.risk.assess_proposal(...)`. -/
def execute_full (mult : ℚ) (p : ExecutionProposal) (reference_price : ℚ)
    (st : RiskState) (threshold : ℕ) (call : AdapterCall)
    (store_fails : Bool) (ts : String) : ExecOut :=
  execute (assess_proposal st mult threshold) p reference_price st threshold call store_fails ts

end Engine

/-! ### Concrete fixtures used by the claim theorems and witnesses -/

def tsEx : String := "2024-01-01T00:00:00"

/-- A well-formed engine-side proposal of size 1. -/
def pEx : Engine.ExecutionProposal where
  proposal_id := "p-1"
  symbol := "BTC/USD"
  direction := Engine.sLONG
  size := 1
  entry_price := 100
  stop_loss := 95
  take_profit := 110
  basket := "BASKET_1"
  module := "MEAN_REVERSION"
  htf_regime := "BALANCED"

/-- An allowing risk decision with allocation multiplier 0.5. -/
def decEx : Engine.Decision where
  allow := true
  allocation_multiplier := 1/2
  reason := Engine.rOk

/-- An adapter order dict reporting a numeric fill of `q`. -/
def ordFill (q : ℚ) : Engine.RawOrder where
  order_id := some "o-1"
  status := some "FILLED"
  filled_size := some (Engine.PyNum.num q)
  avg_price := some (Engine.PyNum.num 100)

/-- An adapter order dict whose `filled_size` is a truthy non-numeric
value: present (so it passes the client's key check) but not
`float(...)`-coercible. -/
def ordBad : Engine.RawOrder where
  order_id := some "o-2"
  status := some "FILLED"
  filled_size := some Engine.PyNum.nonNumeric
  avg_price := some (Engine.PyNum.num 100)

/-- Router-side proposal: valid, non-BASKET_3, but carrying the
LIQUIDITY_RAID module tag. -/
def pLR : Router.ExecutionProposal where
  proposal_id := "r-1"
  symbol := "AVAX/USD"
  direction := Router.sLONG
  size := 1
  entry_price := 10
  stop_loss := 9
  take_profit := 12
  basket := Router.Basket.BASKET_1
  module := Router.Module.LIQUIDITY_RAID
  htf_regime := Router.HTFRegime.HIGH_VOLATILITY
  auction_context := {}

/-- Router-side proposal: valid, in the deprioritized BASKET_3. -/
def pB3 : Router.ExecutionProposal where
  proposal_id := "r-2"
  symbol := "DOT/USD"
  direction := Router.sSHORT
  size := 2
  entry_price := 5
  stop_loss := 6
  take_profit := 4
  basket := Router.Basket.BASKET_3
  module := Router.Module.MEAN_REVERSION
  htf_regime := Router.HTFRegime.HIGH_VOLATILITY
  auction_context := {}

/-- Registry for the C6 counterexample: the first strategy in
HIGH_VOLATILITY priority produces `pLR`, the second `pB3`. -/
def stratsCex : Router.Strategies := fun k =>
  if k = Router.nMeanReversion then some (some pLR)
  else if k = Router.nTrendContinuation then some (some pB3) else none

/-- Registry whose only proposal is the BASKET_3 proposal `pB3`. -/
def stratsB3 : Router.Strategies := fun k =>
  if k = Router.nMeanReversion then some (some pB3) else none

/-- Default (quiet) router risk state. -/
def rsOk : Router.RiskState := {}

/-! ### Shared helper lemmas -/

attribute [local semireducible] Rat.add Rat.mul Rat.inv Rat.sub Rat.ofScientific

theorem update_drawdown_peak_mono (rb : Risk.RiskBrain) (equity : ℚ) :
    rb.equity_peak ≤ (Risk.update_drawdown rb equity).equity_peak := by
  show rb.equity_peak ≤ (if rb.equity_peak < equity then equity else rb.equity_peak)
  split
  · linarith
  · exact le_rfl

theorem update_drawdown_dd_nonpos (rb : Risk.RiskBrain) (equity : ℚ) :
    (Risk.update_drawdown rb equity).drawdown ≤ 0 := by
  show equity - (if rb.equity_peak < equity then equity else rb.equity_peak) ≤ 0
  split
  · simp
  · linarith

/-! ### Claims -/

/-- C10: after every `update_drawdown` call the equity peak is
monotonically non-decreasing and the recorded drawdown
`equity - equity_peak` is nonpositive; starting from the initial state
(`equity_peak = 0`), the drawdown never becomes positive along any
sequence of portfolio PnL values. -/
theorem claim_C10 :
    (∀ (rb : Risk.RiskBrain) (equity : ℚ),
      rb.equity_peak ≤ (Risk.update_drawdown rb equity).equity_peak
        ∧ (Risk.update_drawdown rb equity).drawdown ≤ 0)
    ∧ ∀ (pnls : List ℚ), (pnls.foldl Risk.update_drawdown {}).drawdown ≤ 0 := by
  constructor
  · exact fun rb equity => ⟨update_drawdown_peak_mono rb equity, update_drawdown_dd_nonpos rb equity⟩
  · intro pnls
    induction pnls using List.reverseRecOn with
    | nil => norm_num [Risk.RiskBrain.drawdown]
    | append_singleton l e _ =>
      rw [List.foldl_append, List.foldl_cons, List.foldl_nil]
      exact update_drawdown_dd_nonpos _ e

/-- C3 (code bug): the claim and spec say the drawdown multiplier is at
most 1 between the soft and hard limits and scales *down* linearly; the
source computes `max(0.2, 1.0 + progress)`, so at drawdown −1000 the
multiplier is 1.5 > 1, and it *increases* (to 2.0) as drawdown worsens
toward the hard limit (1.1 at −600 < 1.5 at −1000), making the combined
multiplier exceed 1. -/
theorem claim_C3_bug :
    (Risk.drawdown_multiplier { drawdown := -1000 }).2 = 3/2
    ∧ 1 < (Risk.drawdown_multiplier { drawdown := -1000 }).2
    ∧ (Risk.drawdown_multiplier { drawdown := -600 }).2 = 11/10
    ∧ (Risk.drawdown_multiplier { drawdown := -600 }).2
        < (Risk.drawdown_multiplier { drawdown := -1000 }).2
    ∧ (Risk.drawdown_multiplier { drawdown := -1000 }).2
        * Risk.risk_multiplier 0 * Risk.cpm_multiplier { drawdown := -1000 } = 3/2 := by
  refine ⟨by decide, by decide, by decide, by decide, by decide⟩

/-- C4 counterexample: the status string PARTIALLY_FILLED with a positive
filled size does *not* map to PARTIAL (it contains the substring FILL,
which is checked first, so it maps to FILLED). -/
theorem claim_C4_cex :
    Recon.map_status sPARTIALLY_FILLED (1/2) ≠ Recon.OrderState.PARTIAL := by
  decide

/-- C4 (amended): the mapping is case-insensitive substring matching in
the order CANCEL, REJECT, FILL, PART, then `filled_size > 0` as PARTIAL,
then the open vocabulary OPEN/NEW/PENDING/LIVE/WORKING as SUBMITTED, else
UNKNOWN; consequently PARTIALLY_FILLED (which contains FILL) maps to
FILLED, whether or not `filled_size > 0`. -/
theorem claim_C4 :
    (∀ (s : String) (q : ℚ), Recon.map_status s q = Recon.map_status_spec s q)
    ∧ Recon.map_status sPARTIALLY_FILLED (1/2) = Recon.OrderState.FILLED
    ∧ Recon.map_status sPARTIALLY_FILLED 0 = Recon.OrderState.FILLED := by
  refine ⟨fun s q => ?_, by decide, by decide⟩
  simp only [Recon.map_status, Recon.map_status_spec, List.find?]
  cases h1 : containsSub sCANCEL (pyUpper s) <;>
    cases h2 : containsSub sREJECT (pyUpper s) <;>
      cases h3 : containsSub sFILL (pyUpper s) <;>
        cases h4 : containsSub sPART (pyUpper s) <;>
          simp [h1, h2, h3, h4, List.mem_cons]

/-- C5 (code bug): a SUBMITTED order with its last update 100 seconds in
the past (stuck timeout 30) is *not* marked STUCK by the next
reconciliation pass: `reconcile_once` overwrites `last_update_ts` with
`now_ts` before the staleness test, so the elapsed time it measures is
always 0 and the order stays SUBMITTED. -/
theorem claim_C5_bug :
    (Recon.reconcile_step 30 100
      { proposal_id := "p-5", symbol := "BTC/USD", client_order_id := "p-5",
        order_id := some "o-5", state := Recon.OrderState.SUBMITTED,
        last_status := sOPEN, filled_size := 0, avg_price := 0, last_update_ts := 0 }
      (some { status := some sOPEN, filled_size := some 0, avg_price := some 0 })).state
      = Recon.OrderState.SUBMITTED
    ∧ (30 : ℚ) < 100 - 0 := by
  refine ⟨by decide, by norm_num⟩

/-- C9: the volatility kill switch self-clears.  A concrete price history
(small wiggle, then a 7x jump) trips `kill_active`; from the state reached
after its last spiking update, 19 ≤ `cooldown_cycles` further updates,
none of which fires the spike condition, bring `kill_active` back to
false — no external reset involved, so this halt flag is not monotone. -/
theorem claim_C9 :
    ∃ (pre post : List ℚ),
      (VolKS.run {} pre).kill_active = true
      ∧ VolKS.noSpikeRun (VolKS.run {} pre) post = true
      ∧ (post.length : ℤ) ≤ VolKS.cooldown_cycles
      ∧ (VolKS.run (VolKS.run {} pre) post).kill_active = false := by
  refine ⟨[1,2,1,2,1,1,1,1,1,7,7,7,7,7], List.replicate 19 7, ?_, ?_, ?_, ?_⟩
  · set_option maxRecDepth 80000 in decide
  · set_option maxRecDepth 80000 in decide
  · decide
  · set_option maxRecDepth 80000 in decide

theorem api_failure_step_streak (threshold : ℕ) (st : RunBot.RuntimeState) :
    (RunBot.api_failure_step threshold st).api_failure_streak = st.api_failure_streak + 1 := rfl

theorem api_failure_step_kill_of (threshold : ℕ) (st : RunBot.RuntimeState)
    (h : threshold ≤ st.api_failure_streak + 1) :
    (RunBot.api_failure_step threshold st).kill_switch = true := by
  simp only [RunBot.api_failure_step]
  rw [if_pos h]

/-- Streak arithmetic of consecutive API failures in `hars_main_loop`. -/
theorem api_failures_streak (threshold n : ℕ) (st : RunBot.RuntimeState) :
    (RunBot.api_failures threshold n st).api_failure_streak = st.api_failure_streak + n := by
  induction n with
  | zero => rfl
  | succ m ih =>
    unfold RunBot.api_failures at ih ⊢
    rw [List.range_succ, List.foldl_append, List.foldl_cons, List.foldl_nil,
      api_failure_step_streak, ih, Nat.add_assoc]

theorem api_failure_step_kill_mono (threshold : ℕ) (st : RunBot.RuntimeState)
    (h : st.kill_switch = true) : (RunBot.api_failure_step threshold st).kill_switch = true := by
  simp only [RunBot.api_failure_step]
  split <;> simp [h]

/-- C8 counterexample: with the configured threshold (default 6,
run_bot.py line 146), five consecutive API failures leave the kill switch
off — the claim's "reaches 5 consecutive failures → kill-switch trips" is
false on the code; moreover `hars_main_loop` has no success-driven streak
decrement at all (its decay is time-based, see `failure_decay_step`). -/
theorem claim_C8_cex :
    (RunBot.api_failures RunBot.api_failure_kill_threshold 5 {}).kill_switch = false
    ∧ (RunBot.api_failures RunBot.api_failure_kill_threshold 5 {}).api_failure_streak = 5 := by
  constructor <;> decide

/-- C8 (amended): the kill switch trips once the failure streak reaches
`api_failure_kill_threshold` (default 6) consecutive failures; the streak
decays by exactly one per elapsed `api_failure_decay_sec` of calm (a
time-based decay, not a per-success decrement), and neither the decay nor
any further failure handling ever sets `kill_switch` back to false. -/
theorem claim_C8 :
    (∀ st : RunBot.RuntimeState,
      (RunBot.api_failures RunBot.api_failure_kill_threshold
        RunBot.api_failure_kill_threshold st).kill_switch = true)
    ∧ (∀ (threshold : ℕ) (st : RunBot.RuntimeState), st.kill_switch = true →
        (RunBot.api_failure_step threshold st).kill_switch = true)
    ∧ (∀ (d n l : ℚ) (st : RunBot.RuntimeState),
        ((RunBot.failure_decay_step d n l st).1).kill_switch = st.kill_switch)
    ∧ (∀ (d n l : ℚ) (st : RunBot.RuntimeState), d ≠ 0 → d ≤ n - l →
        0 < st.api_failure_streak →
        (RunBot.failure_decay_step d n l st).1.api_failure_streak
          = st.api_failure_streak - 1) := by
  refine ⟨?_, api_failure_step_kill_mono, ?_, ?_⟩
  · intro st
    show (RunBot.api_failures RunBot.api_failure_kill_threshold 6 st).kill_switch = true
    unfold RunBot.api_failures
    rw [show (6:ℕ) = 5 + 1 from rfl, List.range_succ, List.foldl_append, List.foldl_cons,
      List.foldl_nil]
    have h5 := api_failures_streak RunBot.api_failure_kill_threshold 5 st
    have hb : RunBot.api_failure_kill_threshold = 6 := rfl
    unfold RunBot.api_failures at h5
    refine api_failure_step_kill_of _ _ ?_
    omega
  · intro d n l st
    simp only [RunBot.failure_decay_step]
    split <;> rfl
  · intro d n l st hd hdl hs
    simp only [RunBot.failure_decay_step]
    rw [if_pos ⟨hd, hdl, hs⟩]

/-- C8 witness: concrete instances of every hypothesis-bearing part of
`claim_C8`. -/
theorem claim_C8_witness :
    (RunBot.api_failures RunBot.api_failure_kill_threshold
      RunBot.api_failure_kill_threshold {}).kill_switch = true
    ∧ (RunBot.api_failure_step 6
        { kill_switch := true, api_failure_streak := 6 }).kill_switch = true
    ∧ (RunBot.failure_decay_step 60 100 0
        { kill_switch := true, api_failure_streak := 6 }).1.api_failure_streak = 6 - 1 :=
  ⟨claim_C8.1 {},
   claim_C8.2.1 6 { kill_switch := true, api_failure_streak := 6 } rfl,
   claim_C8.2.2.2 60 100 0 { kill_switch := true, api_failure_streak := 6 }
     (by norm_num) (by norm_num) (by norm_num)⟩

theorem update_drawdown_kill (rb : Risk.RiskBrain) (equity : ℚ) :
    (Risk.update_drawdown rb equity).kill_switch_active = rb.kill_switch_active := rfl

theorem update_cpm_state_kill (rb : Risk.RiskBrain) (now : ℚ) :
    (Risk.update_cpm_state rb now).kill_switch_active = rb.kill_switch_active := by
  unfold Risk.update_cpm_state
  dsimp only
  split <;> split <;> rfl

theorem register_api_failure_kill_mono (st : Engine.RiskState) (threshold : ℕ)
    (h : st.kill_switch = true) :
    (Engine.register_api_failure st threshold).kill_switch = true := by
  simp [Engine.register_api_failure, h]

theorem execute_kill_mono (dec : Engine.Decision) (p : Engine.ExecutionProposal)
    (ref : ℚ) (st : Engine.RiskState) (threshold : ℕ) (call : Engine.AdapterCall)
    (sf : Bool) (ts : String) (h : st.kill_switch = true) :
    (Engine.execute dec p ref st threshold call sf ts).risk.kill_switch = true := by
  unfold Engine.execute
  repeat' (first | split | dsimp only)
  all_goals first
    | rfl
    | exact h
    | exact register_api_failure_kill_mono st threshold h

/-- C2: once the kill switch is on, `RiskBrain.evaluate_trade` rejects
with reason "Kill switch active", `StrategyRouter.route` returns None,
and `ExecutionEngine.execute` (through the spec-modelled
`assess_proposal`) returns None — and none of these components ever turns
the kill switch back off (`execute` preserves it under every decision,
adapter outcome and store outcome; only an external reset could clear
it). -/
theorem claim_C2 :
    (∀ (rb : Risk.RiskBrain) (equity now : ℚ) (p : Risk.TradeProposal)
        (pos : List (String × ℚ)), rb.kill_switch_active = true →
      (Risk.evaluate_trade rb equity now p pos).2 = (false, 0, Risk.rKillSwitchActive)
        ∧ (Risk.evaluate_trade rb equity now p pos).1.kill_switch_active = true)
    ∧ (∀ (cfg : Router.RouterConfig) (regime : Router.HTFRegime)
        (prev : Option Router.HTFRegime) (rs : Router.RiskState)
        (strats : Router.Strategies), rs.kill_switch = true →
      Router.route cfg regime prev rs strats = none)
    ∧ (∀ (mult : ℚ) (p : Engine.ExecutionProposal) (ref : ℚ) (st : Engine.RiskState)
        (threshold : ℕ) (call : Engine.AdapterCall) (sf : Bool) (ts : String),
        st.kill_switch = true →
      (Engine.execute_full mult p ref st threshold call sf ts).result = Except.ok none
        ∧ (Engine.execute_full mult p ref st threshold call sf ts).risk.kill_switch = true)
    ∧ (∀ (dec : Engine.Decision) (p : Engine.ExecutionProposal) (ref : ℚ)
        (st : Engine.RiskState) (threshold : ℕ) (call : Engine.AdapterCall)
        (sf : Bool) (ts : String), st.kill_switch = true →
      (Engine.execute dec p ref st threshold call sf ts).risk.kill_switch = true) := by
  refine ⟨?_, ?_, ?_, execute_kill_mono⟩
  · intro rb equity now p pos h
    have h2 : (Risk.update_cpm_state (Risk.update_drawdown rb equity) now).kill_switch_active
        = true := by
      rw [update_cpm_state_kill, update_drawdown_kill, h]
    constructor <;> simp [Risk.evaluate_trade, h2]
  · intro cfg regime prev rs strats h
    simp [Router.route, h]
  · intro mult p ref st threshold call sf ts h
    have ha : Engine.assess_proposal st mult threshold
        = { allow := false, allocation_multiplier := 0, reason := Engine.rKillSwitchActive } := by
      simp [Engine.assess_proposal, h]
    unfold Engine.execute_full
    rw [ha]
    unfold Engine.execute
    constructor
    · split
      · rfl
      · split
        · rfl
        next hc => exact absurd rfl hc
    · split
      · exact h
      · split
        · exact h
        next hc => exact absurd rfl hc

/-- C2 witness: the three rejections and the preservation at a concrete
kill-switch-on state. -/
theorem claim_C2_witness :
    (Risk.evaluate_trade { kill_switch_active := true } 0 0
      { symbol := "BTC/USD", direction := Risk.sLONG, size := 1 } []).2
      = (false, 0, Risk.rKillSwitchActive)
    ∧ Router.route Router.defaultConfig Router.HTFRegime.BALANCED none
        { kill_switch := true } stratsB3 = none
    ∧ (Engine.execute_full 1 pEx 100 { kill_switch := true } 6
        (Engine.AdapterCall.ok (ordFill 1)) false tsEx).result = Except.ok none
    ∧ (Engine.execute decEx pEx 100 { kill_switch := true } 6
        (Engine.AdapterCall.ok (ordFill 1)) false tsEx).risk.kill_switch = true :=
  ⟨(claim_C2.1 { kill_switch_active := true } 0 0
      { symbol := "BTC/USD", direction := Risk.sLONG, size := 1 } [] rfl).1,
   claim_C2.2.1 Router.defaultConfig Router.HTFRegime.BALANCED none
     { kill_switch := true } stratsB3 rfl,
   (claim_C2.2.2.1 1 pEx 100 { kill_switch := true } 6
     (Engine.AdapterCall.ok (ordFill 1)) false tsEx rfl).1,
   claim_C2.2.2.2 decEx pEx 100 { kill_switch := true } 6
     (Engine.AdapterCall.ok (ordFill 1)) false tsEx rfl⟩

/-- C1: allocation tolerance enforcement in `ExecutionEngine.execute`.
Every accepted execution satisfies
`executed_size ≤ allocated_size * (1 + tol)` with `tol = 0.01`; whenever
the adapter reports a numeric fill strictly above that bound, `execute`
sets `kill_switch`, sets `risk_level` to CIRCUIT, attempts a cancel and
returns None.  In particular with `allocated_size = 0.5` a fill of 0.504
is accepted while a fill of 0.52 takes the violation path. -/
theorem claim_C1 :
    (∀ (dec : Engine.Decision) (p : Engine.ExecutionProposal) (ref : ℚ)
        (st : Engine.RiskState) (threshold : ℕ) (call : Engine.AdapterCall)
        (sf : Bool) (ts : String) (res : Engine.ExecutionResult),
      (Engine.execute dec p ref st threshold call sf ts).result = Except.ok (some res) →
        res.executed_size ≤ res.allocated_size * (1 + Engine.tol))
    ∧ (∀ (dec : Engine.Decision) (p : Engine.ExecutionProposal) (ref : ℚ)
        (st : Engine.RiskState) (threshold : ℕ) (o : Engine.RawOrder)
        (sf : Bool) (ts : String) (f : ℚ),
      Engine.validate p = true → dec.allow = true →
      Engine.min_size ≤ p.size * dec.allocation_multiplier →
      o.filled_size = some (Engine.PyNum.num f) →
      o.avg_price ≠ some Engine.PyNum.nonNumeric →
      p.size * dec.allocation_multiplier * (1 + Engine.tol) < |f| →
        (Engine.execute dec p ref st threshold (Engine.AdapterCall.ok o) sf ts).result
          = Except.ok none
        ∧ (Engine.execute dec p ref st threshold (Engine.AdapterCall.ok o) sf ts).risk.kill_switch
          = true
        ∧ (Engine.execute dec p ref st threshold (Engine.AdapterCall.ok o) sf ts).risk.risk_level
          = Engine.sCIRCUIT
        ∧ (Engine.execute dec p ref st threshold (Engine.AdapterCall.ok o) sf ts).eff.cancelAttempted
          = true)
    ∧ (∃ r : Engine.ExecutionResult,
        (Engine.execute decEx pEx 100 {} 6 (Engine.AdapterCall.ok (ordFill (504/1000)))
          false tsEx).result = Except.ok (some r)
        ∧ r.allocated_size = 1/2 ∧ r.executed_size = 504/1000)
    ∧ (Engine.execute decEx pEx 100 {} 6 (Engine.AdapterCall.ok (ordFill (52/100)))
          false tsEx).result = Except.ok none
    ∧ (Engine.execute decEx pEx 100 {} 6 (Engine.AdapterCall.ok (ordFill (52/100)))
          false tsEx).risk.kill_switch = true
    ∧ (Engine.execute decEx pEx 100 {} 6 (Engine.AdapterCall.ok (ordFill (52/100)))
          false tsEx).eff.cancelAttempted = true := by
  refine ⟨?_, ?_,
    ⟨{ proposal_id := "p-1", symbol := "BTC/USD", client_order_id := "p-1",
       order_id := "o-1", status := "FILLED", allocated_size := 1/2,
       executed_size := 63/125, executed_price := 100, allocation_multiplier := 1/2,
       ts := tsEx, frozen_basket := "BASKET_1", frozen_module := "MEAN_REVERSION",
       frozen_htf_regime := "BALANCED" }, rfl, by norm_num, by norm_num⟩,
    rfl, rfl, rfl⟩
  · intro dec p ref st threshold call sf ts res hres
    unfold Engine.execute at hres
    repeat' (first | split at hres | dsimp only at hres)
    all_goals try (injection hres with h1; exact Option.noConfusion h1)
    all_goals try exact Except.noConfusion hres
    all_goals injection hres with h1
    all_goals injection h1 with h2
    all_goals subst h2
    all_goals dsimp only
    all_goals linarith [not_lt.1 (by assumption)]
  · intro dec p ref st threshold o sf ts f hv ha hmin hf havg hover
    have hnv : ¬(Engine.validate p = false) := by rw [hv]; simp
    have hna : ¬(dec.allow = false) := by rw [ha]; simp
    have hnm : ¬(p.size * dec.allocation_multiplier < Engine.min_size) := not_lt.2 hmin
    unfold Engine.execute
    rw [if_neg hnv, if_neg hna]
    try dsimp only
    rw [if_neg hnm]
    try dsimp only
    rw [hf]
    try dsimp only [Engine.coerce_filled]
    rcases hoa : o.avg_price with _ | pn
    · dsimp only [Engine.coerce_avg]
      rw [if_pos hover]
      exact ⟨rfl, rfl, rfl, rfl⟩
    · cases pn with
      | num q =>
        dsimp only [Engine.coerce_avg]
        rw [if_pos hover]
        exact ⟨rfl, rfl, rfl, rfl⟩
      | nonNumeric => exact absurd hoa havg

/-- C1 witness: the tolerance bound instantiated at the accepted 0.504
fill, and the violation path instantiated at the 0.52 fill. -/
theorem claim_C1_witness :
    (Engine.execute decEx pEx 100 {} 6 (Engine.AdapterCall.ok (ordFill (52/100)))
        false tsEx).result = Except.ok none
    ∧ (Engine.execute decEx pEx 100 {} 6 (Engine.AdapterCall.ok (ordFill (52/100)))
        false tsEx).risk.kill_switch = true
    ∧ (Engine.execute decEx pEx 100 {} 6 (Engine.AdapterCall.ok (ordFill (52/100)))
        false tsEx).eff.cancelAttempted = true :=
  ⟨(claim_C1.2.1 decEx pEx 100 {} 6 (ordFill (52/100)) false tsEx (52/100)
      rfl rfl (by decide) rfl (by decide) (by decide)).1,
   (claim_C1.2.1 decEx pEx 100 {} 6 (ordFill (52/100)) false tsEx (52/100)
      rfl rfl (by decide) rfl (by decide) (by decide)).2.1,
   (claim_C1.2.1 decEx pEx 100 {} 6 (ordFill (52/100)) false tsEx (52/100)
      rfl rfl (by decide) rfl (by decide) (by decide)).2.2.2⟩

/-- C7 (code bug): the spec and the class docstring ("exceptions
contained") say `execute` never raises, converting even malformed order
fields into a log entry / None; but the field coercions run *outside* the
`try` block, so an adapter order dict whose `filled_size` is a truthy
non-numeric value (the in-repo client only checks key presence, not
types) makes `float(...)` raise an uncaught `ValueError`.  A raised
`APIError` from the adapter call itself, by contrast, is always
contained. -/
theorem claim_C7_bug :
    (Engine.execute decEx pEx 100 {} 6 (Engine.AdapterCall.ok ordBad) false tsEx).result
      = Except.error Engine.ExcKind.valueError
    ∧ (∀ (dec : Engine.Decision) (p : Engine.ExecutionProposal) (ref : ℚ)
        (st : Engine.RiskState) (threshold : ℕ) (sf : Bool) (ts : String),
      (Engine.execute dec p ref st threshold Engine.AdapterCall.apiError sf ts).result
        = Except.ok none) := by
  constructor
  · rfl
  · intro dec p ref st threshold sf ts
    unfold Engine.execute
    repeat' (first | split | dsimp only)
    all_goals first | rfl | simp_all

theorem route_scan_eq_scanModel (cfg : Router.RouterConfig) (regime : Router.HTFRegime)
    (strats : Router.Strategies) (hsb : cfg.basket3_soft_block = true) :
    ∀ (l : List String) (fb : Option Router.ExecutionProposal),
      Router.route_scan cfg regime strats l fb
        = Router.scanModel (Router.eligList cfg regime strats l) fb := by
  intro l
  induction l with
  | nil => intro fb; rfl
  | cons k rest ih =>
    intro fb
    cases hk : strats k with
    | none =>
      simp only [Router.route_scan, Router.eligList, List.filterMap_cons, hk]
      exact ih fb
    | some op =>
      cases op with
      | none =>
        simp only [Router.route_scan, Router.eligList, List.filterMap_cons, hk]
        exact ih fb
      | some p =>
        by_cases hv : Router.validate p = false
        · have he : Router.eligible cfg regime p = false := by
            simp [Router.eligible, hv]
          simp only [Router.route_scan, Router.eligList, List.filterMap_cons, hk, hv, he,
            if_true, if_false]
          simpa using ih fb
        · have hv2 : Router.validate p = true := by
            revert hv; cases Router.validate p <;> simp
          by_cases hg : p.module = Router.Module.LIQUIDITY_RAID
              ∧ regime ∈ cfg.disable_liquidity_raid_in
          · have he : Router.eligible cfg regime p = false := by
              simp [Router.eligible, hg.1, hg.2]
            simp only [Router.route_scan, Router.eligList, List.filterMap_cons, hk, he]
            rw [if_neg (by simp [hv2]), if_pos hg]
            simpa using ih fb
          · have he : Router.eligible cfg regime p = true := by
              simp only [Router.eligible, hv2, Bool.true_and, Bool.not_eq_true',
                decide_eq_false_iff_not]
              exact hg
            by_cases hb : p.basket = Router.Basket.BASKET_3
            · simp only [Router.route_scan, Router.eligList, List.filterMap_cons, hk, he]
              rw [if_neg (by simp [hv2]), if_neg hg, if_pos ⟨hsb, hb⟩]
              simp only [if_true, Router.scanModel, hb, if_pos rfl]
              simpa using ih (some p)
            · simp only [Router.route_scan, Router.eligList, List.filterMap_cons, hk, he]
              rw [if_neg (by simp [hv2]), if_neg hg, if_neg (by rintro ⟨_, hc⟩; exact hb hc)]
              simp [Router.scanModel, hb]

theorem scanModel_all_b3 :
    ∀ (el : List Router.ExecutionProposal) (fb : Option Router.ExecutionProposal),
      el ≠ [] → (∀ p ∈ el, p.basket = Router.Basket.BASKET_3) →
      ∃ p, Router.scanModel el fb = some p ∧ p ∈ el := by
  intro el
  induction el with
  | nil => intro fb h; exact absurd rfl h
  | cons p rest ih =>
    intro fb _ hall
    have hb : p.basket = Router.Basket.BASKET_3 := hall p (List.mem_cons_self p rest)
    by_cases hr : rest = []
    · subst hr
      exact ⟨p, by simp [Router.scanModel, hb], by simp⟩
    · obtain ⟨q, hq, hqm⟩ :=
        ih (some p) hr (fun x hx => hall x (List.mem_cons_of_mem p hx))
      exact ⟨q, by simp [Router.scanModel, hb, hq], List.mem_cons_of_mem p hqm⟩

theorem scanModel_nonb3 :
    ∀ (el : List Router.ExecutionProposal) (fb : Option Router.ExecutionProposal),
      (∃ p ∈ el, p.basket ≠ Router.Basket.BASKET_3) →
      ∃ p, Router.scanModel el fb = some p ∧ p.basket ≠ Router.Basket.BASKET_3 := by
  intro el
  induction el with
  | nil => rintro fb ⟨q, hq, _⟩; exact absurd hq (List.not_mem_nil q)
  | cons p rest ih =>
    rintro fb ⟨q, hq, hqb⟩
    by_cases hb : p.basket = Router.Basket.BASKET_3
    · have hqr : q ∈ rest := by
        rcases List.mem_cons.1 hq with hqp | hqr
        · exact absurd (hqp ▸ hb) hqb
        · exact hqr
      obtain ⟨r, hr, hrb⟩ := ih (some p) ⟨q, hqr, hqb⟩
      exact ⟨r, by simp [Router.scanModel, hb, hr], hrb⟩
    · exact ⟨p, by simp [Router.scanModel, hb], hb⟩

/-- C6 counterexample: with the default config in HIGH_VOLATILITY regime,
the scan sees a *valid* non-BASKET_3 proposal (`pLR`) first, yet `route`
returns the BASKET_3 proposal `pB3`: `pLR` carries the LIQUIDITY_RAID
module tag and is skipped by the module/regime gate of
strategy_router.py line 293, which the claim's notion of "valid proposal"
does not account for. -/
theorem claim_C6_cex :
    Router.route Router.defaultConfig Router.HTFRegime.HIGH_VOLATILITY none rsOk stratsCex
      = some pB3
    ∧ pB3.basket = Router.Basket.BASKET_3
    ∧ Router.validate pLR = true
    ∧ pLR.basket ≠ Router.Basket.BASKET_3
    ∧ stratsCex Router.nMeanReversion = some (some pLR)
    ∧ Router.nMeanReversion ∈ Router.apply_rule_gates Router.defaultConfig
        Router.HTFRegime.HIGH_VOLATILITY rsOk
        (Router.priority_for_regime Router.defaultConfig
          Router.HTFRegime.HIGH_VOLATILITY none) := by
  refine ⟨by decide, by decide, by decide, by decide, by decide, by decide⟩

/-- C6 (amended): with the BASKET_3 soft block enabled and the router not
hard-blocked, among the proposals that pass validation *and* survive the
module/regime gate: if there is at least one and all of them are BASKET_3,
`route` returns one of them (not None); and if any of them is
non-BASKET_3, `route` returns a non-BASKET_3 proposal even when a
BASKET_3 one comes earlier in priority order. -/
theorem claim_C6 :
    ∀ (cfg : Router.RouterConfig) (regime : Router.HTFRegime)
      (prev : Option Router.HTFRegime) (rs : Router.RiskState)
      (strats : Router.Strategies),
    cfg.basket3_soft_block = true →
    rs.kill_switch = false →
    rs.risk_level ≠ Router.sCIRCUIT →
    rs.risk_level ≠ Router.sCIRCUIT_BREAK →
    regime ∉ cfg.no_trade_regimes →
    (Router.eligList cfg regime strats
        (Router.apply_rule_gates cfg regime rs (Router.priority_for_regime cfg regime prev))
        ≠ [] →
      (∀ p ∈ Router.eligList cfg regime strats
          (Router.apply_rule_gates cfg regime rs (Router.priority_for_regime cfg regime prev)),
        p.basket = Router.Basket.BASKET_3) →
      ∃ p, Router.route cfg regime prev rs strats = some p
        ∧ p ∈ Router.eligList cfg regime strats
            (Router.apply_rule_gates cfg regime rs (Router.priority_for_regime cfg regime prev))
        ∧ p.basket = Router.Basket.BASKET_3)
    ∧ ((∃ p ∈ Router.eligList cfg regime strats
          (Router.apply_rule_gates cfg regime rs (Router.priority_for_regime cfg regime prev)),
        p.basket ≠ Router.Basket.BASKET_3) →
      ∃ p, Router.route cfg regime prev rs strats = some p
        ∧ p.basket ≠ Router.Basket.BASKET_3) := by
  intro cfg regime prev rs strats hsb hk hl1 hl2 hnt
  have hroute : Router.route cfg regime prev rs strats
      = Router.scanModel (Router.eligList cfg regime strats
          (Router.apply_rule_gates cfg regime rs (Router.priority_for_regime cfg regime prev)))
          none := by
    unfold Router.route
    rw [if_neg, if_neg hnt]
    · exact route_scan_eq_scanModel cfg regime strats hsb _ none
    · rintro (hc | hc | hc)
      · rw [hk] at hc; exact Bool.false_ne_true hc
      · exact hl1 hc
      · exact hl2 hc
  constructor
  · intro hne hall
    obtain ⟨p, hp, hpm⟩ := scanModel_all_b3 _ none hne hall
    exact ⟨p, by rw [hroute]; exact hp, hpm, hall p hpm⟩
  · intro hex
    obtain ⟨p, hp, hpb⟩ := scanModel_nonb3 _ none hex
    exact ⟨p, by rw [hroute]; exact hp, hpb⟩

/-- C6 witness: with the default config in BALANCED regime and a registry
whose only proposal is the BASKET_3 proposal `pB3`, `route` returns it. -/
theorem claim_C6_witness :
    ∃ p, Router.route Router.defaultConfig Router.HTFRegime.BALANCED none rsOk stratsB3
        = some p
      ∧ p ∈ Router.eligList Router.defaultConfig Router.HTFRegime.BALANCED stratsB3
          (Router.apply_rule_gates Router.defaultConfig Router.HTFRegime.BALANCED rsOk
            (Router.priority_for_regime Router.defaultConfig Router.HTFRegime.BALANCED none))
      ∧ p.basket = Router.Basket.BASKET_3 :=
  (claim_C6 Router.defaultConfig Router.HTFRegime.BALANCED none rsOk stratsB3
    rfl rfl (by decide) (by decide) (by decide)).1 (by decide) (by decide)

end ATS
